import Mathlib

/-!
A shallow embedding of the per-frame tooltip state machine of
`src/context.rs` (the `update_tooltip_context` system of the
`pyri_tooltip` fork), together with proofs about its behaviour.

Modelling conventions:
* `f32` coordinates and distances are modelled as exact rationals (`ℚ`).
* `Entity` ids are modelled as `Nat`; `Entity::PLACEHOLDER` is a fixed
  distinguished number.
* The `u16` timer is a `Nat`; `saturating_sub` is truncated `Nat`
  subtraction, and the `as u16` cast of the frame delta (whole
  milliseconds, itself a truncation of the frame `Duration`) is `% 65536`.
* The ECS queries consumed by the system are snapshot inputs of one
  frame, collected in `FrameInput`: the single camera/window pair that
  the per-camera loops of the source resolve, the reversed `UiStack`
  (topmost first, with each node's optional `(Tooltip, Interaction)`
  components), and the sprite list.
* The two buffered events `HideTooltip { entity }` / `ShowTooltip` that
  the system writes in a frame are returned as a `FrameEffects` value.
-/

namespace PyriTooltip

/-- The four states of the tooltip state machine (`TooltipState` in `src/context.rs`). -/
inductive TooltipState
  | Inactive
  | Delayed
  | Active
  | Dismissed
deriving DecidableEq, Repr

/-- A 2D vector with rational coordinates, modelling `bevy_math::Vec2`
(`f32` coordinates are modelled as exact rationals). -/
structure Vec2 where
  x : ℚ
  y : ℚ
deriving DecidableEq, Repr

def Vec2.zero : Vec2 := ⟨0, 0⟩

/-- `Vec2::distance_squared`: squared euclidean distance. -/
def distance_squared (a b : Vec2) : ℚ :=
  (a.x - b.x) * (a.x - b.x) + (a.y - b.y) * (a.y - b.y)

/-- Modelled from the spec: the tooltip content kind (`TooltipContent`),
either the shared primary container or a custom content entity.  The
definition of the enum lives outside `src/`; its two variants and their
use are visible in `src/context.rs` (`old_entity` computation and
`show_tooltip`).  The primary text payload is irrelevant to the state
machine and omitted. -/
inductive TooltipContent
  | Primary
  | Custom (id : Nat)
deriving DecidableEq, Repr

/-- Modelled from the spec: the activation part of a tooltip config
(`activation: { delay, reset_delay_on_cursor_move }`, spec §3); field
use matches `src/context.rs`. -/
structure Activation where
  delay : Nat
  reset_delay_on_cursor_move : Bool
deriving DecidableEq, Repr

/-- Modelled from the spec: the dismissal part of a tooltip config
(`dismissal: { on_distance, on_click }`, spec §3); field use matches
`src/context.rs` (`on_distance` is squared once when the config is
copied into the live context). -/
structure Dismissal where
  on_distance : ℚ
  on_click : Bool
deriving DecidableEq, Repr

/-- Modelled from the spec: the transfer part of a tooltip config
(`transfer: { layer, group, timeout, from_active }`, spec §3); field use
matches `src/context.rs`. -/
structure Transfer where
  layer : Nat
  group : Option Nat
  timeout : Nat
  from_active : Bool
deriving DecidableEq, Repr

/-- Modelled from the spec: a per-target tooltip configuration
(`Tooltip`, spec §3).  The struct definition lives outside `src/`; the
fields gathered here are exactly the ones `src/context.rs` reads.  The
anchor/placement hint is not read by the state machine and is omitted. -/
structure Tooltip where
  content : TooltipContent
  activation : Activation
  dismissal : Dismissal
  transfer : Transfer
deriving DecidableEq, Repr

/-- `Entity::PLACEHOLDER` (`Entity::from_raw(u32::MAX)`), as a `Nat` id. -/
def PLACEHOLDER : Nat := 4294967295

/-- The `TooltipContext` resource of `src/context.rs`. -/
structure TooltipContext where
  state : TooltipState
  target : Nat
  timer : Nat
  cursor_pos : Vec2
  tooltip : Tooltip
deriving DecidableEq, Repr

/-- The `TooltipSettings` fields read by `update_tooltip_context`:
only the primary container entity. -/
structure TooltipSettings where
  container : Nat
deriving DecidableEq, Repr

/-- The interaction state of a UI node (`bevy_ui::Interaction`). -/
inductive Interaction
  | Pressed
  | Hovered
  | None
deriving DecidableEq, Repr

/-- One entry of the reversed `UiStack` (topmost first): the entity id
and, when the entity has both a `Tooltip` and an `Interaction`
component, that pair (the source's `cq!(interaction_query.get(entity))`
skips entities lacking either). -/
structure UiEntry where
  entity : Nat
  comps : Option (Tooltip × Interaction)
deriving DecidableEq, Repr

/-- One entry of the sprite query: entity id, `Tooltip`, the sprite's
`custom_size`, and the `x`/`y` of its `GlobalTransform` translation. -/
structure SpriteEntry where
  entity : Nat
  tooltip : Tooltip
  custom_size : Option Vec2
  world_pos : Vec2
deriving DecidableEq, Repr

/-- The snapshot of ECS inputs that one run of `update_tooltip_context`
reads.  `cam_window` says whether a camera whose render target resolves
to the window exists; `focused` / `cursor_position` / `win_width` /
`win_height` describe that window; `cam_center` / `cam_scale` are the
camera transform's translation (truncated) and scale. -/
structure FrameInput where
  cam_window : Bool
  focused : Bool
  cursor_position : Option Vec2
  win_width : ℚ
  win_height : ℚ
  cam_center : Vec2
  cam_scale : Vec2
  delta_ms : Nat
  ui_nodes : List UiEntry
  sprites : List SpriteEntry
deriving Repr

/-- The buffered `HideTooltip` / `ShowTooltip` events written during one
frame: the hide event carries the previous content entity. -/
structure FrameEffects where
  hide_event : Option Nat
  show_event : Bool
deriving DecidableEq, Repr

/-- The pointer position used by the cursor-movement block of
`update_tooltip_context` (lines 207–240): it requires a camera whose
target resolves to the window (`cq!`/`c!`), `cq!(window.focused)`, and
`cq!(window.cursor_position())`; any failure skips the block. -/
def frame_pointer (inp : FrameInput) : Option Vec2 :=
  if inp.cam_window && inp.focused then inp.cursor_position else Option.none

/-- `get_current_cursor_pos` of `src/context.rs`: the window's cursor
position with `unwrap_or_default()` (so `Vec2::ZERO` when the window
reports no position), ignoring the window's focus; `Vec2::default()`
when the camera does not target a resolvable window. -/
def get_current_cursor_pos (inp : FrameInput) : Vec2 :=
  if inp.cam_window then inp.cursor_position.getD Vec2.zero else Vec2.zero

/-- The cursor-movement block of `update_tooltip_context` (lines
219–237): reset the activation delay on cursor move while `Delayed`,
dismiss on leaving the activation radius while `Active`, and record the
live cursor position unless the state is (still) `Active`. -/
def cursor_movement_step (inp : FrameInput) (ctx : TooltipContext) : TooltipContext :=
  match frame_pointer inp with
  | Option.none => ctx
  | Option.some p =>
    let c1 :=
      if ctx.cursor_pos ≠ p ∧ ctx.state = TooltipState.Delayed ∧
          ctx.tooltip.activation.reset_delay_on_cursor_move = true then
        { ctx with timer := ctx.tooltip.activation.delay }
      else ctx
    let c2 :=
      if c1.state = TooltipState.Active ∧
          distance_squared c1.cursor_pos p > c1.tooltip.dismissal.on_distance then
        { c1 with state := TooltipState.Dismissed }
      else c1
    if c2.state ≠ TooltipState.Active then { c2 with cursor_pos := p } else c2

/-- The timer tick of `update_tooltip_context` (lines 242–248):
`ctx.timer.saturating_sub(time.delta().as_millis() as u16)` while
`Inactive` or `Delayed`, and the `Delayed → Active` transition when the
timer reaches zero. -/
def tick_timer_step (delta_ms : Nat) (ctx : TooltipContext) : TooltipContext :=
  if ctx.state = TooltipState.Inactive ∨ ctx.state = TooltipState.Delayed then
    if ctx.state = TooltipState.Delayed ∧ ctx.timer - delta_ms % 65536 = 0 then
      { ctx with timer := ctx.timer - delta_ms % 65536, state := TooltipState.Active }
    else
      { ctx with timer := ctx.timer - delta_ms % 65536 }
  else ctx

/-- The group comparison inside `should_activate_immediately`:
`matches!((ctx.tooltip.transfer.group, tooltip.transfer.group), (Some(x), Some(y)) if x == y)`. -/
def group_matches (a b : Option Nat) : Bool :=
  match a, b with
  | Option.some x, Option.some y => x == y
  | _, _ => false

/-- `should_activate_immediately` of `src/context.rs` (lines 119–130). -/
def should_activate_immediately (tooltip : Tooltip) (ctx : TooltipContext)
    (target_entity : Nat) : Bool :=
  tooltip.activation.delay == 0 ||
    (decide (ctx.state = TooltipState.Inactive) && decide (0 < ctx.timer) &&
      decide (ctx.tooltip.transfer.layer ≥ tooltip.transfer.layer) &&
      (group_matches ctx.tooltip.transfer.group tooltip.transfer.group ||
        ctx.target == target_entity))

/-- The pre-squaring of the live copy's distance threshold
(`ctx.tooltip.dismissal.on_distance *= ctx.tooltip.dismissal.on_distance`). -/
def square_on_distance (t : Tooltip) : Tooltip :=
  { t with dismissal :=
      { t.dismissal with on_distance := t.dismissal.on_distance * t.dismissal.on_distance } }

/-- `apply_tooltip_transition` of `src/context.rs` (lines 133–148). -/
def apply_tooltip_transition (ctx : TooltipContext) (entity : Nat) (tooltip : Tooltip)
    (activate_immediately : Bool) : TooltipContext :=
  { ctx with
    state := if activate_immediately then TooltipState.Active else TooltipState.Delayed,
    target := entity,
    timer := tooltip.activation.delay,
    tooltip := square_on_distance tooltip }

/-- The shared tail of the UI and sprite target loops: the
"still hovering the same target entity" refresh, or the
"switch to the new target entity" transition.  Returns the updated
context and `found_target = true`. -/
def hover_resolve (ctx : TooltipContext) (entity : Nat) (tooltip : Tooltip) :
    TooltipContext × Bool :=
  if ctx.target = entity ∧ ctx.state ≠ TooltipState.Inactive then
    ({ ctx with tooltip := square_on_distance tooltip }, true)
  else
    (apply_tooltip_transition ctx entity tooltip
      (should_activate_immediately tooltip ctx entity), true)

/-- The UI target loop of `update_tooltip_context` (lines 251–279) over
the reversed `UiStack`: skip entities without components, short-circuit
a pressed node with `dismissal.on_click` into a `Dismissed` state that
copies only the `transfer` field, skip `Interaction::None`, and
otherwise resolve the hover. -/
def resolve_ui : List UiEntry → TooltipContext → TooltipContext × Bool
  | [], ctx => (ctx, false)
  | e :: rest, ctx =>
    match e.comps with
    | Option.none => resolve_ui rest ctx
    | Option.some (tooltip, interaction) =>
      match interaction with
      | Interaction.Pressed =>
        if tooltip.dismissal.on_click then
          ({ ctx with
              target := e.entity,
              state := TooltipState.Dismissed,
              tooltip := { ctx.tooltip with transfer := tooltip.transfer } }, true)
        else hover_resolve ctx e.entity tooltip
      | Interaction.None => resolve_ui rest ctx
      | Interaction.Hovered => hover_resolve ctx e.entity tooltip

/-- `sprite_contains_point` of `src/context.rs` (lines 150–183): manual
world-to-screen conversion followed by an axis-aligned bounds test
around the (always centre-anchored) sprite, with default size 32×32. -/
def sprite_contains_point (spr : SpriteEntry) (inp : FrameInput) (point : Vec2) : Bool :=
  let half_width := inp.win_width / 2 * inp.cam_scale.x
  let half_height := inp.win_height / 2 * inp.cam_scale.y
  let left := inp.cam_center.x - half_width
  let bottom := inp.cam_center.y - half_height
  let screen_x := (spr.world_pos.x - left) / inp.cam_scale.x
  let screen_y := inp.win_height - ((spr.world_pos.y - bottom) / inp.cam_scale.y)
  let size := spr.custom_size.getD ⟨32, 32⟩
  let half_x := size.x / 2
  let half_y := size.y / 2
  decide (screen_x - half_x ≤ point.x) && decide (point.x ≤ screen_x + half_x) &&
    decide (screen_y - half_y ≤ point.y) && decide (point.y ≤ screen_y + half_y)

/-- The sprite scan of `update_tooltip_context` (lines 301–328): skip
sprites the current cursor position (possibly defaulted) does not hit,
then resolve the hover exactly as for UI nodes. -/
def resolve_sprites_list (inp : FrameInput) (point : Vec2) :
    List SpriteEntry → TooltipContext → TooltipContext × Bool
  | [], ctx => (ctx, false)
  | spr :: rest, ctx =>
    if sprite_contains_point spr inp point then
      hover_resolve ctx spr.entity spr.tooltip
    else resolve_sprites_list inp point rest ctx

/-- The sprite fallback of `update_tooltip_context` (lines 282–330): it
only finds targets when a camera targeting a resolvable window exists
(otherwise `get_window_from_camera` yields `None` and every sprite is
skipped), and it hit-tests against `get_current_cursor_pos`. -/
def resolve_sprites (inp : FrameInput) (ctx : TooltipContext) : TooltipContext × Bool :=
  if inp.cam_window then
    resolve_sprites_list inp (get_current_cursor_pos inp) inp.sprites ctx
  else (ctx, false)

/-- The "no longer a target entity" block of `update_tooltip_context`
(lines 333–341). -/
def no_target_step (found : Bool) (ctx : TooltipContext) : TooltipContext :=
  if found = false ∧ ctx.state ≠ TooltipState.Inactive then
    { ctx with
      timer :=
        if ctx.state = TooltipState.Active ∨ ctx.tooltip.transfer.from_active = false then
          ctx.tooltip.transfer.timeout
        else 0,
      state := TooltipState.Inactive }
  else ctx

/-- The previous content entity (`old_entity`, lines 200–203): the
primary container for primary content, the stored id for custom
content. -/
def old_content_entity (s : TooltipSettings) (ctx : TooltipContext) : Nat :=
  match ctx.tooltip.content with
  | TooltipContent.Primary => s.container
  | TooltipContent.Custom id => id

/-- The event-emission block of `update_tooltip_context` (lines
343–352): when the activity status flipped, the target changed, or a
target was found this frame, write `HideTooltip { old_entity }` if the
old state was `Active` and `ShowTooltip` if the new state is `Active`. -/
def emit_effects (s : TooltipSettings) (old new : TooltipContext) (found : Bool) :
    FrameEffects :=
  if decide (old.state = TooltipState.Active) ≠ decide (new.state = TooltipState.Active) ∨
      old.target ≠ new.target ∨ found = true then
    { hide_event :=
        if old.state = TooltipState.Active then Option.some (old_content_entity s old)
        else Option.none,
      show_event := decide (new.state = TooltipState.Active) }
  else
    { hide_event := Option.none, show_event := false }

/-- The whole `update_tooltip_context` system of `src/context.rs` for
one frame: cursor-movement block, timer tick, UI target loop, sprite
fallback, no-target transition, event emission. -/
def update_tooltip_context (s : TooltipSettings) (inp : FrameInput)
    (ctx : TooltipContext) : TooltipContext × FrameEffects :=
  let c1 := cursor_movement_step inp ctx
  let c2 := tick_timer_step inp.delta_ms c1
  let r3 := resolve_ui inp.ui_nodes c2
  let r4 := if r3.2 then r3 else resolve_sprites inp r3.1
  let c5 := no_target_step r4.2 r4.1
  (c5, emit_effects s ctx c5 r4.2)

/-- Run a sequence of frames from a context, counting the hide and show
events emitted across the run: result is (final context, hide count,
show count). -/
def run_frames (s : TooltipSettings) :
    List FrameInput → TooltipContext → TooltipContext × Nat × Nat
  | [], ctx => (ctx, 0, 0)
  | i :: rest, ctx =>
    let r := update_tooltip_context s i ctx
    let t := run_frames s rest r.1
    (t.1, (if r.2.hide_event.isSome then 1 else 0) + t.2.1,
      (if r.2.show_event then 1 else 0) + t.2.2)

/-! ### Stage lemmas -/

theorem frame_pointer_none_of_unfocused (inp : FrameInput) (h : inp.focused = false) :
    frame_pointer inp = Option.none := by
  simp [frame_pointer, h]

theorem frame_pointer_none_of_no_cam (inp : FrameInput) (h : inp.cam_window = false) :
    frame_pointer inp = Option.none := by
  simp [frame_pointer, h]

theorem frame_pointer_none_of_no_pos (inp : FrameInput)
    (h : inp.cursor_position = Option.none) : frame_pointer inp = Option.none := by
  unfold frame_pointer
  split <;> simp [h]

/-- When the cursor-movement block's guards fail, the block is a no-op. -/
theorem cursor_movement_step_skip (inp : FrameInput) (ctx : TooltipContext)
    (h : frame_pointer inp = Option.none) : cursor_movement_step inp ctx = ctx := by
  unfold cursor_movement_step
  rw [h]

theorem tick_timer_step_skip (d : Nat) (ctx : TooltipContext)
    (h1 : ctx.state ≠ TooltipState.Inactive) (h2 : ctx.state ≠ TooltipState.Delayed) :
    tick_timer_step d ctx = ctx := by
  unfold tick_timer_step
  rw [if_neg]
  simp [h1, h2]

theorem tick_timer_step_inactive (d : Nat) (ctx : TooltipContext)
    (h : ctx.state = TooltipState.Inactive) :
    tick_timer_step d ctx = { ctx with timer := ctx.timer - d % 65536 } := by
  unfold tick_timer_step
  rw [if_pos (Or.inl h), if_neg]
  simp [h]

theorem tick_timer_step_delayed_lt (d : Nat) (ctx : TooltipContext)
    (h : ctx.state = TooltipState.Delayed) (hlt : d % 65536 < ctx.timer) :
    tick_timer_step d ctx = { ctx with timer := ctx.timer - d % 65536 } := by
  unfold tick_timer_step
  rw [if_pos (Or.inr h), if_neg]
  intro hc
  omega

theorem tick_timer_step_delayed_le (d : Nat) (ctx : TooltipContext)
    (h : ctx.state = TooltipState.Delayed) (hle : ctx.timer ≤ d % 65536) :
    tick_timer_step d ctx =
      { ctx with timer := 0, state := TooltipState.Active } := by
  unfold tick_timer_step
  rw [if_pos (Or.inr h), if_pos]
  · have : ctx.timer - d % 65536 = 0 := by omega
    rw [this]
  · exact ⟨h, by omega⟩

/-- UI entries whose entity lacks components or has `Interaction::None`
are skipped by the UI target loop. -/
theorem resolve_ui_skip (front rest : List UiEntry) (ctx : TooltipContext)
    (h : ∀ a ∈ front, a.comps = Option.none ∨
      ∃ t, a.comps = Option.some (t, Interaction.None)) :
    resolve_ui (front ++ rest) ctx = resolve_ui rest ctx := by
  induction front with
  | nil => rfl
  | cons a front ih =>
    have ha := h a (List.mem_cons_self a front)
    have hrest : ∀ b ∈ front, b.comps = Option.none ∨
        ∃ t, b.comps = Option.some (t, Interaction.None) :=
      fun b hb => h b (List.mem_cons_of_mem a hb)
    rcases ha with ha | ⟨t, ha⟩ <;>
      simp only [List.cons_append, resolve_ui, ha] <;> exact ih hrest

/-! ### Preservation of `cursor_pos` by the target-resolution stages -/

theorem hover_resolve_cursor_pos (ctx : TooltipContext) (entity : Nat) (tooltip : Tooltip) :
    (hover_resolve ctx entity tooltip).1.cursor_pos = ctx.cursor_pos := by
  unfold hover_resolve apply_tooltip_transition
  split <;> rfl

theorem resolve_ui_cursor_pos (l : List UiEntry) (ctx : TooltipContext) :
    (resolve_ui l ctx).1.cursor_pos = ctx.cursor_pos := by
  induction l generalizing ctx with
  | nil => rfl
  | cons e rest ih =>
    unfold resolve_ui
    match he : e.comps with
    | Option.none => exact ih ctx
    | Option.some (tooltip, interaction) =>
      match interaction with
      | Interaction.Pressed =>
        simp only
        split
        · rfl
        · exact hover_resolve_cursor_pos ctx e.entity tooltip
      | Interaction.None => exact ih ctx
      | Interaction.Hovered => exact hover_resolve_cursor_pos ctx e.entity tooltip

theorem resolve_sprites_list_cursor_pos (inp : FrameInput) (point : Vec2)
    (l : List SpriteEntry) (ctx : TooltipContext) :
    (resolve_sprites_list inp point l ctx).1.cursor_pos = ctx.cursor_pos := by
  induction l generalizing ctx with
  | nil => rfl
  | cons spr rest ih =>
    unfold resolve_sprites_list
    split
    · exact hover_resolve_cursor_pos ctx spr.entity spr.tooltip
    · exact ih ctx

theorem resolve_sprites_cursor_pos (inp : FrameInput) (ctx : TooltipContext) :
    (resolve_sprites inp ctx).1.cursor_pos = ctx.cursor_pos := by
  unfold resolve_sprites
  split
  · exact resolve_sprites_list_cursor_pos inp (get_current_cursor_pos inp) inp.sprites ctx
  · rfl

theorem no_target_step_cursor_pos (found : Bool) (ctx : TooltipContext) :
    (no_target_step found ctx).cursor_pos = ctx.cursor_pos := by
  unfold no_target_step
  split <;> rfl

theorem tick_timer_step_cursor_pos (d : Nat) (ctx : TooltipContext) :
    (tick_timer_step d ctx).cursor_pos = ctx.cursor_pos := by
  unfold tick_timer_step
  split
  · split <;> rfl
  · rfl

/-- After the cursor-movement block, no later stage of the frame writes
`cursor_pos`. -/
theorem update_cursor_pos (s : TooltipSettings) (inp : FrameInput) (ctx : TooltipContext) :
    (update_tooltip_context s inp ctx).1.cursor_pos =
      (cursor_movement_step inp ctx).cursor_pos := by
  unfold update_tooltip_context
  simp only
  rw [no_target_step_cursor_pos]
  split
  · rw [resolve_ui_cursor_pos, tick_timer_step_cursor_pos]
  · rw [resolve_sprites_cursor_pos, resolve_ui_cursor_pos, tick_timer_step_cursor_pos]

theorem no_target_step_found (ctx : TooltipContext) : no_target_step true ctx = ctx := by
  unfold no_target_step
  rw [if_neg]
  simp

theorem no_target_step_inactive (found : Bool) (ctx : TooltipContext)
    (h : ctx.state = TooltipState.Inactive) : no_target_step found ctx = ctx := by
  unfold no_target_step
  rw [if_neg]
  simp [h]

theorem no_target_step_transition (ctx : TooltipContext)
    (h : ctx.state ≠ TooltipState.Inactive) :
    no_target_step false ctx =
      { ctx with
        timer :=
          if ctx.state = TooltipState.Active ∨ ctx.tooltip.transfer.from_active = false then
            ctx.tooltip.transfer.timeout
          else 0,
        state := TooltipState.Inactive } := by
  unfold no_target_step
  rw [if_pos ⟨rfl, h⟩]

theorem resolve_sprites_no_cam (inp : FrameInput) (ctx : TooltipContext)
    (h : inp.cam_window = false) : resolve_sprites inp ctx = (ctx, false) := by
  unfold resolve_sprites
  rw [if_neg]
  simp [h]

/-- The whole frame when the UI loop found a target. -/
theorem update_found_ui (s : TooltipSettings) (inp : FrameInput) (ctx c : TooltipContext)
    (h : resolve_ui inp.ui_nodes
        (tick_timer_step inp.delta_ms (cursor_movement_step inp ctx)) = (c, true)) :
    update_tooltip_context s inp ctx = (c, emit_effects s ctx c true) := by
  simp only [update_tooltip_context]
  rw [h]
  simp [no_target_step_found]

/-- The whole frame when neither the UI loop nor the sprite scan found a
target (stated for frames without a window-targeting camera). -/
theorem update_no_target (s : TooltipSettings) (inp : FrameInput) (ctx c : TooltipContext)
    (hcam : inp.cam_window = false)
    (h : resolve_ui inp.ui_nodes
        (tick_timer_step inp.delta_ms (cursor_movement_step inp ctx)) = (c, false)) :
    update_tooltip_context s inp ctx =
      (no_target_step false c, emit_effects s ctx (no_target_step false c) false) := by
  simp only [update_tooltip_context]
  rw [h]
  simp [resolve_sprites_no_cam _ _ hcam]

/-! ### Concrete fixtures used by witnesses and counterexamples -/

/-- A sample tooltip configuration: custom content entity 50, 2 ms
activation delay with reset-on-move, distance threshold 10, click
dismissal off, transfer layer 0 / no group / 5 ms timeout /
`from_active` off. -/
def sampleTooltip : Tooltip :=
  { content := TooltipContent.Custom 50,
    activation := { delay := 2, reset_delay_on_cursor_move := true },
    dismissal := { on_distance := 10, on_click := false },
    transfer := { layer := 0, group := Option.none, timeout := 5, from_active := false } }

/-- The startup context (`Default for TooltipContext`), with the
placeholder tooltip taken to be `sampleTooltip` with primary content. -/
def startContext : TooltipContext :=
  { state := TooltipState.Inactive, target := PLACEHOLDER, timer := 0,
    cursor_pos := Vec2.zero, tooltip := { sampleTooltip with content := TooltipContent.Primary } }

/-- A frame with no camera/window, no pointer, no targets, 1 ms delta. -/
def emptyFrame : FrameInput :=
  { cam_window := false, focused := false, cursor_position := Option.none,
    win_width := 800, win_height := 600, cam_center := Vec2.zero, cam_scale := ⟨1, 1⟩,
    delta_ms := 1, ui_nodes := [], sprites := [] }

/-! ### C10 -/

/-- C10: the per-frame timer decrement subtracts the frame delta in
whole milliseconds reduced modulo 2^16, with saturating (truncated)
subtraction, so the timer never increases and never wraps below zero —
here stated for a whole frame that stays `Inactive` with no targets. -/
theorem C10_timer_decrement (s : TooltipSettings) (inp : FrameInput) (ctx : TooltipContext)
    (hcam : inp.cam_window = false) (hn : inp.ui_nodes = [])
    (hs : ctx.state = TooltipState.Inactive) :
    (update_tooltip_context s inp ctx).1.timer = ctx.timer - inp.delta_ms % 65536 ∧
    (update_tooltip_context s inp ctx).1.timer ≤ ctx.timer := by
  have hcur := cursor_movement_step_skip inp ctx (frame_pointer_none_of_no_cam inp hcam)
  have htick := tick_timer_step_inactive inp.delta_ms ctx hs
  have hui : resolve_ui inp.ui_nodes
      (tick_timer_step inp.delta_ms (cursor_movement_step inp ctx)) =
      ({ ctx with timer := ctx.timer - inp.delta_ms % 65536 }, false) := by
    rw [hcur, htick, hn]
    rfl
  rw [update_no_target s inp ctx _ hcam hui,
    no_target_step_inactive false _ (by exact hs)]
  exact ⟨rfl, by simp⟩

/-- C10 witness: a concrete frame whose delta is 65537 ms decrements a
100 ms timer by exactly 1 ms (65537 mod 65536), not to zero. -/
theorem C10_timer_decrement_witness :
    (update_tooltip_context ⟨99⟩ { emptyFrame with delta_ms := 65537 }
      { startContext with timer := 100 }).1.timer = 100 - 65537 % 65536 ∧
    100 - 65537 % 65536 = 99 :=
  ⟨(C10_timer_decrement ⟨99⟩ { emptyFrame with delta_ms := 65537 }
      { startContext with timer := 100 } rfl rfl rfl).1, by decide⟩

/-! ### C2 -/

/-- `sampleTooltip` with `transfer.from_active` enabled. -/
def transferActiveTooltip : Tooltip :=
  { sampleTooltip with transfer := { sampleTooltip.transfer with from_active := true } }

/-- An `Active` context on target 7 whose config enables `from_active`. -/
def activeCtx7 : TooltipContext :=
  { startContext with
    state := TooltipState.Active
    target := 7
    tooltip := transferActiveTooltip }

/-- A `Dismissed` context on target 7 whose config enables `from_active`. -/
def dismissedCtx7 : TooltipContext :=
  { startContext with
    state := TooltipState.Dismissed
    target := 7
    tooltip := transferActiveTooltip }

/-- C2 counterexample: a frame with no target while the state is
`Active` (with `transfer.from_active` enabled and `transfer.timeout` =
5) sets `timer` to 5, the transfer timeout — the claim requires the
timer to be 0 whenever the outgoing state was `Active`. -/
theorem C2_counterexample :
    (update_tooltip_context ⟨99⟩ emptyFrame activeCtx7).1.state = TooltipState.Inactive ∧
    (update_tooltip_context ⟨99⟩ emptyFrame activeCtx7).1.timer = 5 ∧
    activeCtx7.state = TooltipState.Active ∧
    activeCtx7.tooltip.transfer.from_active = true ∧
    activeCtx7.tooltip.transfer.timeout = 5 := by
  decide

/-- C2 amended: on a no-target frame with state ≠ `Inactive`, the code
sets `timer` to the outgoing target's `transfer.timeout` exactly when
the outgoing state was `Active` or the outgoing config has
`transfer.from_active` disabled, and to 0 otherwise (the reverse of the
claim's two branches). -/
theorem C2_no_target_timer (s : TooltipSettings) (inp : FrameInput) (ctx : TooltipContext)
    (hcam : inp.cam_window = false) (hn : inp.ui_nodes = [])
    (hs : ctx.state ≠ TooltipState.Inactive)
    (hd : ctx.state = TooltipState.Delayed → inp.delta_ms % 65536 < ctx.timer) :
    (update_tooltip_context s inp ctx).1.state = TooltipState.Inactive ∧
    (update_tooltip_context s inp ctx).1.timer =
      (if ctx.state = TooltipState.Active ∨ ctx.tooltip.transfer.from_active = false then
        ctx.tooltip.transfer.timeout
      else 0) := by
  have hcur := cursor_movement_step_skip inp ctx (frame_pointer_none_of_no_cam inp hcam)
  match h : ctx.state with
  | TooltipState.Inactive => exact absurd h hs
  | TooltipState.Delayed =>
    have htick := tick_timer_step_delayed_lt inp.delta_ms ctx h (hd h)
    have hui : resolve_ui inp.ui_nodes
        (tick_timer_step inp.delta_ms (cursor_movement_step inp ctx)) =
        ({ ctx with timer := ctx.timer - inp.delta_ms % 65536 }, false) := by
      rw [hcur, htick, hn]
      rfl
    rw [update_no_target s inp ctx _ hcam hui, no_target_step_transition _ (by simp [h])]
    simp [h]
  | TooltipState.Active =>
    have htick := tick_timer_step_skip inp.delta_ms ctx (by simp [h]) (by simp [h])
    have hui : resolve_ui inp.ui_nodes
        (tick_timer_step inp.delta_ms (cursor_movement_step inp ctx)) = (ctx, false) := by
      rw [hcur, htick, hn]
      rfl
    rw [update_no_target s inp ctx _ hcam hui, no_target_step_transition _ (by simp [h])]
    simp [h]
  | TooltipState.Dismissed =>
    have htick := tick_timer_step_skip inp.delta_ms ctx (by simp [h]) (by simp [h])
    have hui : resolve_ui inp.ui_nodes
        (tick_timer_step inp.delta_ms (cursor_movement_step inp ctx)) = (ctx, false) := by
      rw [hcur, htick, hn]
      rfl
    rw [update_no_target s inp ctx _ hcam hui, no_target_step_transition _ (by simp [h])]
    simp [h]

/-- C2 amended witness: losing the target from `Dismissed` with
`from_active` enabled leaves no transfer grace period (timer 0). -/
theorem C2_no_target_timer_witness :
    (update_tooltip_context ⟨99⟩ emptyFrame dismissedCtx7).1.state = TooltipState.Inactive ∧
    (update_tooltip_context ⟨99⟩ emptyFrame dismissedCtx7).1.timer =
      (if dismissedCtx7.state = TooltipState.Active ∨
          dismissedCtx7.tooltip.transfer.from_active = false then
        dismissedCtx7.tooltip.transfer.timeout
      else 0) :=
  C2_no_target_timer ⟨99⟩ emptyFrame dismissedCtx7 rfl rfl (by decide) (by decide)

/-! ### More stage lemmas -/

/-- When the timer cannot run out this frame, the tick only decrements
the timer (while `Inactive` or `Delayed`) and changes nothing else. -/
theorem tick_timer_step_no_activation (d : Nat) (ctx : TooltipContext)
    (hd : ctx.state = TooltipState.Delayed → d % 65536 < ctx.timer) :
    tick_timer_step d ctx =
      { ctx with timer :=
          if ctx.state = TooltipState.Inactive ∨ ctx.state = TooltipState.Delayed then
            ctx.timer - d % 65536
          else ctx.timer } := by
  unfold tick_timer_step
  by_cases hio : ctx.state = TooltipState.Inactive ∨ ctx.state = TooltipState.Delayed
  · rw [if_pos hio, if_pos hio, if_neg]
    rintro ⟨h1, h2⟩
    have := hd h1
    omega
  · rw [if_neg hio, if_neg hio]

/-- A still pointer over a non-`Active` context leaves the
cursor-movement block a no-op. -/
theorem cursor_movement_step_still (inp : FrameInput) (ctx : TooltipContext) (p : Vec2)
    (hfp : frame_pointer inp = Option.some p) (hp : ctx.cursor_pos = p)
    (hs : ctx.state ≠ TooltipState.Active) :
    cursor_movement_step inp ctx = ctx := by
  subst hp
  unfold cursor_movement_step
  rw [hfp]
  simp [hs]

/-- The cursor-movement block while `Active`: dismiss (and then record
the live pointer) exactly when the squared distance from the stored
activation point strictly exceeds the stored (pre-squared) threshold. -/
theorem cursor_movement_step_active (inp : FrameInput) (ctx : TooltipContext) (p : Vec2)
    (hfp : frame_pointer inp = Option.some p) (hs : ctx.state = TooltipState.Active) :
    cursor_movement_step inp ctx =
      if distance_squared ctx.cursor_pos p > ctx.tooltip.dismissal.on_distance then
        { ctx with state := TooltipState.Dismissed, cursor_pos := p }
      else ctx := by
  unfold cursor_movement_step
  rw [hfp]
  by_cases hgt : distance_squared ctx.cursor_pos p > ctx.tooltip.dismissal.on_distance
  · simp [hs, hgt]
  · simp [hs, hgt]

/-- The UI loop on a topmost hovered node that is the current target of
a non-`Inactive` context: refresh the live config copy. -/
theorem resolve_ui_refresh (e : Nat) (T : Tooltip) (rest : List UiEntry)
    (ctx : TooltipContext) (h1 : ctx.target = e) (h2 : ctx.state ≠ TooltipState.Inactive) :
    resolve_ui (⟨e, Option.some (T, Interaction.Hovered)⟩ :: rest) ctx =
      ({ ctx with tooltip := square_on_distance T }, true) := by
  simp only [resolve_ui, hover_resolve]
  rw [if_pos ⟨h1, h2⟩]

/-- The UI loop on a topmost hovered node that is a new (or first)
target: apply the transition decided by `should_activate_immediately`. -/
theorem resolve_ui_new_target (e : Nat) (T : Tooltip) (rest : List UiEntry)
    (ctx : TooltipContext) (h : ¬(ctx.target = e ∧ ctx.state ≠ TooltipState.Inactive)) :
    resolve_ui (⟨e, Option.some (T, Interaction.Hovered)⟩ :: rest) ctx =
      (apply_tooltip_transition ctx e T (should_activate_immediately T ctx e), true) := by
  simp only [resolve_ui, hover_resolve]
  rw [if_neg h]

/-- The UI loop on a topmost pressed node with `dismissal.on_click`:
dismiss, retarget, and copy only the `transfer` field. -/
theorem resolve_ui_click (e : Nat) (T : Tooltip) (rest : List UiEntry)
    (ctx : TooltipContext) (hc : T.dismissal.on_click = true) :
    resolve_ui (⟨e, Option.some (T, Interaction.Pressed)⟩ :: rest) ctx =
      ({ ctx with
          target := e,
          state := TooltipState.Dismissed,
          tooltip := { ctx.tooltip with transfer := T.transfer } }, true) := by
  simp only [resolve_ui]
  rw [if_pos hc]

/-- The emission block when a target was found this frame. -/
theorem emit_effects_found (s : TooltipSettings) (old new : TooltipContext) :
    emit_effects s old new true =
      { hide_event :=
          if old.state = TooltipState.Active then Option.some (old_content_entity s old)
          else Option.none,
        show_event := decide (new.state = TooltipState.Active) } := by
  unfold emit_effects
  rw [if_pos (Or.inr (Or.inr rfl))]

/-! ### C1 -/

/-- A frame whose topmost UI node is target 7 hovered (no window focus,
so the pointer block is skipped; resolution is interaction-based). -/
def hoverFrame7 : FrameInput :=
  { emptyFrame with ui_nodes := [⟨7, Option.some (sampleTooltip, Interaction.Hovered)⟩] }

/-- C1 counterexample: a frame that stays `Active` on the unchanged
target 7 (same state and target before and after the update) still
emits both a hide event and a show event, because the emission
condition also fires whenever a target was found this frame. -/
theorem C1_counterexample :
    (update_tooltip_context ⟨99⟩ hoverFrame7 activeCtx7).1.state = activeCtx7.state ∧
    (update_tooltip_context ⟨99⟩ hoverFrame7 activeCtx7).1.target = activeCtx7.target ∧
    (update_tooltip_context ⟨99⟩ hoverFrame7 activeCtx7).2.hide_event = Option.some 50 ∧
    (update_tooltip_context ⟨99⟩ hoverFrame7 activeCtx7).2.show_event = true := by
  decide

/-- C1 amended: a frame in which the same target is still hovered and
the state does not change emits no events when that state is not
`Active`, but re-emits one hide event and one show event (a content
refresh) when it is `Active`; hide/show are thus duplicated on every
hovered `Active` frame, not only when the activity status flips. -/
theorem C1_same_target_effects (s : TooltipSettings) (inp : FrameInput)
    (ctx : TooltipContext) (T : Tooltip)
    (hf : inp.focused = false)
    (hn : inp.ui_nodes = [⟨ctx.target, Option.some (T, Interaction.Hovered)⟩])
    (hs : ctx.state ≠ TooltipState.Inactive)
    (hd : ctx.state = TooltipState.Delayed → inp.delta_ms % 65536 < ctx.timer) :
    (update_tooltip_context s inp ctx).1.state = ctx.state ∧
    (update_tooltip_context s inp ctx).1.target = ctx.target ∧
    (update_tooltip_context s inp ctx).2.hide_event =
      (if ctx.state = TooltipState.Active then Option.some (old_content_entity s ctx)
       else Option.none) ∧
    (update_tooltip_context s inp ctx).2.show_event =
      decide (ctx.state = TooltipState.Active) := by
  have hcur := cursor_movement_step_skip inp ctx (frame_pointer_none_of_unfocused inp hf)
  have htick := tick_timer_step_no_activation inp.delta_ms ctx hd
  have hui : resolve_ui inp.ui_nodes
      (tick_timer_step inp.delta_ms (cursor_movement_step inp ctx)) =
      ({ ctx with
          timer :=
            if ctx.state = TooltipState.Inactive ∨ ctx.state = TooltipState.Delayed then
              ctx.timer - inp.delta_ms % 65536
            else ctx.timer,
          tooltip := square_on_distance T }, true) := by
    rw [hcur, htick, hn]
    exact resolve_ui_refresh _ _ _ _ rfl hs
  rw [update_found_ui s inp ctx _ hui]
  rw [emit_effects_found]
  exact ⟨rfl, rfl, rfl, rfl⟩

/-- A `Delayed` context on target 7 with 5 ms left on the delay. -/
def delayedCtx7 : TooltipContext :=
  { startContext with
    state := TooltipState.Delayed
    target := 7
    timer := 5
    tooltip := transferActiveTooltip }

/-- C1 amended witness: a frame still hovering target 7 while `Delayed`
keeps state and target and emits nothing. -/
theorem C1_same_target_effects_witness :
    (update_tooltip_context ⟨99⟩ hoverFrame7 delayedCtx7).1.state = delayedCtx7.state ∧
    (update_tooltip_context ⟨99⟩ hoverFrame7 delayedCtx7).1.target = delayedCtx7.target ∧
    (update_tooltip_context ⟨99⟩ hoverFrame7 delayedCtx7).2.hide_event =
      (if delayedCtx7.state = TooltipState.Active then
        Option.some (old_content_entity ⟨99⟩ delayedCtx7)
       else Option.none) ∧
    (update_tooltip_context ⟨99⟩ hoverFrame7 delayedCtx7).2.show_event =
      decide (delayedCtx7.state = TooltipState.Active) :=
  C1_same_target_effects ⟨99⟩ hoverFrame7 delayedCtx7 sampleTooltip rfl rfl
    (by decide) (by decide)

/-! ### C4 -/

/-- Unfolding of the boolean fast-transfer rule into a proposition. -/
theorem should_activate_immediately_iff (T : Tooltip) (c : TooltipContext) (e : Nat) :
    should_activate_immediately T c e = true ↔
      (T.activation.delay = 0 ∨
        (c.state = TooltipState.Inactive ∧ 0 < c.timer ∧
          T.transfer.layer ≤ c.tooltip.transfer.layer ∧
          (group_matches c.tooltip.transfer.group T.transfer.group = true ∨
            c.target = e))) := by
  unfold should_activate_immediately
  simp [Bool.or_eq_true, Bool.and_eq_true, decide_eq_true_eq, beq_iff_eq, ge_iff_le,
    and_assoc]

/-- C4: on a frame whose topmost interacted UI node is a different (or
first) hovered target `e` with config `T`, the update retargets to `e`,
sets the timer to `T`'s full activation delay, and enters `Active`
(rather than `Delayed`) exactly when `T.activation.delay = 0`, or the
current state is `Inactive` with a still-running transfer timer (after
this frame's tick) and `T.transfer.layer` is at most the previous
config's layer and the two configs share a non-empty transfer group or
the new target equals the previous one. -/
theorem C4_new_target_transition (s : TooltipSettings) (inp : FrameInput)
    (ctx : TooltipContext) (e : Nat) (T : Tooltip)
    (hf : inp.focused = false)
    (hn : inp.ui_nodes = [⟨e, Option.some (T, Interaction.Hovered)⟩])
    (hne : ctx.state = TooltipState.Inactive ∨ ctx.target ≠ e)
    (hd : ctx.state = TooltipState.Delayed → inp.delta_ms % 65536 < ctx.timer) :
    (update_tooltip_context s inp ctx).1.target = e ∧
    (update_tooltip_context s inp ctx).1.timer = T.activation.delay ∧
    ((update_tooltip_context s inp ctx).1.state = TooltipState.Active ↔
      (T.activation.delay = 0 ∨
        (ctx.state = TooltipState.Inactive ∧
          0 < ctx.timer - inp.delta_ms % 65536 ∧
          T.transfer.layer ≤ ctx.tooltip.transfer.layer ∧
          (group_matches ctx.tooltip.transfer.group T.transfer.group = true ∨
            ctx.target = e)))) ∧
    ((update_tooltip_context s inp ctx).1.state = TooltipState.Active ∨
      (update_tooltip_context s inp ctx).1.state = TooltipState.Delayed) := by
  have hcur := cursor_movement_step_skip inp ctx (frame_pointer_none_of_unfocused inp hf)
  have htick := tick_timer_step_no_activation inp.delta_ms ctx hd
  set cc : TooltipContext :=
    { ctx with timer :=
        if ctx.state = TooltipState.Inactive ∨ ctx.state = TooltipState.Delayed then
          ctx.timer - inp.delta_ms % 65536
        else ctx.timer } with hcc
  have hnc : ¬(cc.target = e ∧ cc.state ≠ TooltipState.Inactive) := by
    rcases hne with h | h
    · exact fun hco => hco.2 h
    · exact fun hco => h hco.1
  have hui : resolve_ui inp.ui_nodes
      (tick_timer_step inp.delta_ms (cursor_movement_step inp ctx)) =
      (apply_tooltip_transition cc e T (should_activate_immediately T cc e), true) := by
    rw [hcur, htick, hn]
    exact resolve_ui_new_target _ _ _ _ hnc
  rw [update_found_ui s inp ctx _ hui]
  have hrule : should_activate_immediately T cc e = true ↔
      (T.activation.delay = 0 ∨
        (ctx.state = TooltipState.Inactive ∧
          0 < ctx.timer - inp.delta_ms % 65536 ∧
          T.transfer.layer ≤ ctx.tooltip.transfer.layer ∧
          (group_matches ctx.tooltip.transfer.group T.transfer.group = true ∨
            ctx.target = e))) := by
    rw [should_activate_immediately_iff]
    simp only [hcc]
    constructor
    · rintro (h | ⟨h1, h2, h3⟩)
      · exact Or.inl h
      · rw [if_pos (Or.inl h1)] at h2
        exact Or.inr ⟨h1, h2, h3⟩
    · rintro (h | ⟨h1, h2, h3⟩)
      · exact Or.inl h
      · refine Or.inr ⟨h1, ?_, h3⟩
        rw [if_pos (Or.inl h1)]
        exact h2
  unfold apply_tooltip_transition
  by_cases hb : should_activate_immediately T cc e = true
  · rw [if_pos hb]
    exact ⟨rfl, rfl, iff_of_true rfl (hrule.mp hb), Or.inl rfl⟩
  · rw [if_neg hb]
    refine ⟨rfl, rfl, iff_of_false (by simp) fun hr => hb (hrule.mpr hr), Or.inr rfl⟩

/-- A frame hovering a new target 8 whose config fast-transfers from
the `sampleTooltip` group: layer 0, group 3 on both sides, delay 7. -/
def groupTooltip : Tooltip :=
  { sampleTooltip with
    activation := { delay := 7, reset_delay_on_cursor_move := false }
    transfer := { layer := 0, group := Option.some 3, timeout := 5, from_active := false } }

/-- An `Inactive` context right after leaving a grouped target 7, with
4 ms left on the transfer timeout. -/
def inactiveTransferCtx : TooltipContext :=
  { startContext with
    target := 7
    timer := 4
    tooltip := { sampleTooltip with
      transfer := { layer := 0, group := Option.some 3, timeout := 5, from_active := false } } }

/-- The frame hovering new target 8 carrying `groupTooltip`. -/
def hoverFrame8 : FrameInput :=
  { emptyFrame with ui_nodes := [⟨8, Option.some (groupTooltip, Interaction.Hovered)⟩] }

/-- C4 witness: a same-group, same-layer transfer within the timeout
fast-activates the new target 8 immediately. -/
theorem C4_new_target_transition_witness :
    (update_tooltip_context ⟨99⟩ hoverFrame8 inactiveTransferCtx).1.target = 8 ∧
    (update_tooltip_context ⟨99⟩ hoverFrame8 inactiveTransferCtx).1.timer =
      groupTooltip.activation.delay ∧
    ((update_tooltip_context ⟨99⟩ hoverFrame8 inactiveTransferCtx).1.state =
        TooltipState.Active ↔
      (groupTooltip.activation.delay = 0 ∨
        (inactiveTransferCtx.state = TooltipState.Inactive ∧
          0 < inactiveTransferCtx.timer - hoverFrame8.delta_ms % 65536 ∧
          groupTooltip.transfer.layer ≤ inactiveTransferCtx.tooltip.transfer.layer ∧
          (group_matches inactiveTransferCtx.tooltip.transfer.group
              groupTooltip.transfer.group = true ∨
            inactiveTransferCtx.target = 8)))) ∧
    ((update_tooltip_context ⟨99⟩ hoverFrame8 inactiveTransferCtx).1.state =
        TooltipState.Active ∨
      (update_tooltip_context ⟨99⟩ hoverFrame8 inactiveTransferCtx).1.state =
        TooltipState.Delayed) :=
  C4_new_target_transition ⟨99⟩ hoverFrame8 inactiveTransferCtx 8 groupTooltip rfl rfl
    (by decide) (by decide)

/-! ### C6 and C9: click dismissal -/

/-- The whole frame when the topmost interacted UI node (after skipping
nodes without components or with `Interaction::None`) is pressed with
`dismissal.on_click` enabled. -/
theorem update_click (s : TooltipSettings) (inp : FrameInput) (ctx : TooltipContext)
    (front rest : List UiEntry) (e : Nat) (T : Tooltip)
    (hn : inp.ui_nodes = front ++ ⟨e, Option.some (T, Interaction.Pressed)⟩ :: rest)
    (hskip : ∀ a ∈ front, a.comps = Option.none ∨
      ∃ t, a.comps = Option.some (t, Interaction.None))
    (hc : T.dismissal.on_click = true) :
    update_tooltip_context s inp ctx =
      (let c2 := tick_timer_step inp.delta_ms (cursor_movement_step inp ctx)
       let c3 : TooltipContext :=
        { c2 with
          target := e,
          state := TooltipState.Dismissed,
          tooltip := { c2.tooltip with transfer := T.transfer } }
       (c3, emit_effects s ctx c3 true)) := by
  apply update_found_ui
  rw [hn, resolve_ui_skip _ _ _ hskip]
  exact resolve_ui_click e T rest _ hc

/-- C6: when the topmost interacted UI element is pressed and its
config enables `dismissal.on_click`, the same frame's update ends in
`Dismissed`, emits a hide event for the previous content entity exactly
when the state was `Active` before the update, and emits no show
event. -/
theorem C6_click_dismissal (s : TooltipSettings) (inp : FrameInput) (ctx : TooltipContext)
    (front rest : List UiEntry) (e : Nat) (T : Tooltip)
    (hn : inp.ui_nodes = front ++ ⟨e, Option.some (T, Interaction.Pressed)⟩ :: rest)
    (hskip : ∀ a ∈ front, a.comps = Option.none ∨
      ∃ t, a.comps = Option.some (t, Interaction.None))
    (hc : T.dismissal.on_click = true) :
    (update_tooltip_context s inp ctx).1.state = TooltipState.Dismissed ∧
    (ctx.state = TooltipState.Active →
      (update_tooltip_context s inp ctx).2.hide_event =
        Option.some (old_content_entity s ctx)) ∧
    (ctx.state ≠ TooltipState.Active →
      (update_tooltip_context s inp ctx).2.hide_event = Option.none) ∧
    (update_tooltip_context s inp ctx).2.show_event = false := by
  rw [update_click s inp ctx front rest e T hn hskip hc]
  simp only [emit_effects_found]
  refine ⟨by simp, fun hA => by simp [hA], fun hA => by simp [hA], by simp⟩

/-- A pressed UI node for target 9 whose config enables click
dismissal, below a component-less node and an uninteracted node. -/
def clickTooltip : Tooltip :=
  { sampleTooltip with dismissal := { on_distance := 10, on_click := true } }

/-- The frame whose UI stack is: a bare node, a node with
`Interaction::None`, then target 9 pressed with `clickTooltip`. -/
def clickFrame9 : FrameInput :=
  { emptyFrame with
    ui_nodes := [⟨3, Option.none⟩, ⟨4, Option.some (sampleTooltip, Interaction.None)⟩,
      ⟨9, Option.some (clickTooltip, Interaction.Pressed)⟩] }

theorem clickFrame9_nodes :
    clickFrame9.ui_nodes =
      [⟨3, Option.none⟩, ⟨4, Option.some (sampleTooltip, Interaction.None)⟩] ++
        (⟨9, Option.some (clickTooltip, Interaction.Pressed)⟩ : UiEntry) :: [] := rfl

theorem clickFrame9_skip :
    ∀ a ∈ ([⟨3, Option.none⟩,
        ⟨4, Option.some (sampleTooltip, Interaction.None)⟩] : List UiEntry),
      a.comps = Option.none ∨ ∃ t, a.comps = Option.some (t, Interaction.None) := by
  intro a ha
  simp only [List.mem_cons, List.not_mem_nil, or_false] at ha
  rcases ha with rfl | rfl
  · exact Or.inl rfl
  · exact Or.inr ⟨sampleTooltip, rfl⟩

/-- C6 witness: clicking target 9 while the tooltip is `Active` on
target 7 dismisses it within the frame and emits the hide event for
content entity 50. -/
theorem C6_click_dismissal_witness :
    (update_tooltip_context ⟨99⟩ clickFrame9 activeCtx7).1.state = TooltipState.Dismissed ∧
    (activeCtx7.state = TooltipState.Active →
      (update_tooltip_context ⟨99⟩ clickFrame9 activeCtx7).2.hide_event =
        Option.some (old_content_entity ⟨99⟩ activeCtx7)) ∧
    (activeCtx7.state ≠ TooltipState.Active →
      (update_tooltip_context ⟨99⟩ clickFrame9 activeCtx7).2.hide_event = Option.none) ∧
    (update_tooltip_context ⟨99⟩ clickFrame9 activeCtx7).2.show_event = false :=
  C6_click_dismissal ⟨99⟩ clickFrame9 activeCtx7 _ _ 9 clickTooltip
    clickFrame9_nodes clickFrame9_skip rfl

/-- C9: a pressed topmost interacted element with `dismissal.on_click`
dismisses from every prior state, retargets to that element, copies
only the `transfer` field of its config into the live context, and
leaves the stored content, activation, and dismissal fields unchanged. -/
theorem C9_click_copies_transfer_only (s : TooltipSettings) (inp : FrameInput)
    (ctx : TooltipContext) (front rest : List UiEntry) (e : Nat) (T : Tooltip)
    (hn : inp.ui_nodes = front ++ ⟨e, Option.some (T, Interaction.Pressed)⟩ :: rest)
    (hskip : ∀ a ∈ front, a.comps = Option.none ∨
      ∃ t, a.comps = Option.some (t, Interaction.None))
    (hc : T.dismissal.on_click = true) :
    (update_tooltip_context s inp ctx).1.state = TooltipState.Dismissed ∧
    (update_tooltip_context s inp ctx).1.target = e ∧
    (update_tooltip_context s inp ctx).1.tooltip.transfer = T.transfer ∧
    (update_tooltip_context s inp ctx).1.tooltip.content = ctx.tooltip.content ∧
    (update_tooltip_context s inp ctx).1.tooltip.activation = ctx.tooltip.activation ∧
    (update_tooltip_context s inp ctx).1.tooltip.dismissal = ctx.tooltip.dismissal := by
  rw [update_click s inp ctx front rest e T hn hskip hc]
  have hcu : (cursor_movement_step inp ctx).tooltip = ctx.tooltip := by
    unfold cursor_movement_step
    match frame_pointer inp with
    | Option.none => rfl
    | Option.some p => simp only; split <;> split <;> split <;> rfl
  have htk : (tick_timer_step inp.delta_ms (cursor_movement_step inp ctx)).tooltip =
      ctx.tooltip := by
    unfold tick_timer_step
    split
    · split <;> exact hcu
    · exact hcu
  exact ⟨rfl, rfl, rfl, by simp [htk], by simp [htk], by simp [htk]⟩

/-- C9 witness: clicking target 9 from the startup `Inactive` context
dismisses, retargets to 9, copies `clickTooltip`'s transfer field, and
keeps the stored content/activation/dismissal. -/
theorem C9_click_copies_transfer_only_witness :
    (update_tooltip_context ⟨99⟩ clickFrame9 startContext).1.state =
      TooltipState.Dismissed ∧
    (update_tooltip_context ⟨99⟩ clickFrame9 startContext).1.target = 9 ∧
    (update_tooltip_context ⟨99⟩ clickFrame9 startContext).1.tooltip.transfer =
      clickTooltip.transfer ∧
    (update_tooltip_context ⟨99⟩ clickFrame9 startContext).1.tooltip.content =
      startContext.tooltip.content ∧
    (update_tooltip_context ⟨99⟩ clickFrame9 startContext).1.tooltip.activation =
      startContext.tooltip.activation ∧
    (update_tooltip_context ⟨99⟩ clickFrame9 startContext).1.tooltip.dismissal =
      startContext.tooltip.dismissal :=
  C9_click_copies_transfer_only ⟨99⟩ clickFrame9 startContext _ _ 9 clickTooltip
    clickFrame9_nodes clickFrame9_skip rfl

/-! ### C7 -/

/-- C7: while `Active` over a frame that still hovers the same target,
the update dismisses exactly when the squared distance between the
frozen activation point and the live pointer strictly exceeds the
stored (pre-squared) threshold; at or below the threshold (including
exactly on it) the state remains `Active`. -/
theorem C7_distance_dismissal (s : TooltipSettings) (inp : FrameInput)
    (ctx : TooltipContext) (T : Tooltip) (p : Vec2)
    (hs : ctx.state = TooltipState.Active)
    (hfp : frame_pointer inp = Option.some p)
    (hn : inp.ui_nodes = [⟨ctx.target, Option.some (T, Interaction.Hovered)⟩]) :
    ((update_tooltip_context s inp ctx).1.state = TooltipState.Dismissed ↔
      distance_squared ctx.cursor_pos p > ctx.tooltip.dismissal.on_distance) ∧
    (¬ distance_squared ctx.cursor_pos p > ctx.tooltip.dismissal.on_distance →
      (update_tooltip_context s inp ctx).1.state = TooltipState.Active) := by
  have hcur := cursor_movement_step_active inp ctx p hfp hs
  by_cases hgt : distance_squared ctx.cursor_pos p > ctx.tooltip.dismissal.on_distance
  · have hui : resolve_ui inp.ui_nodes
        (tick_timer_step inp.delta_ms (cursor_movement_step inp ctx)) =
        ({ ctx with
            state := TooltipState.Dismissed,
            cursor_pos := p,
            tooltip := square_on_distance T }, true) := by
      rw [hcur, if_pos hgt, tick_timer_step_skip _ _ (by simp) (by simp), hn]
      exact resolve_ui_refresh _ _ _ _ rfl (by simp)
    rw [update_found_ui s inp ctx _ hui]
    exact ⟨iff_of_true rfl hgt, fun hc => absurd hgt hc⟩
  · have hui : resolve_ui inp.ui_nodes
        (tick_timer_step inp.delta_ms (cursor_movement_step inp ctx)) =
        ({ ctx with tooltip := square_on_distance T }, true) := by
      rw [hcur, if_neg hgt, tick_timer_step_skip _ _ (by simp [hs]) (by simp [hs]), hn]
      exact resolve_ui_refresh _ _ _ _ rfl (by simp [hs])
    rw [update_found_ui s inp ctx _ hui]
    exact ⟨iff_of_false (by simp [hs]) hgt, fun _ => hs⟩

/-- An `Active` context on target 7 whose stored threshold is exactly 5. -/
def activeEdgeCtx : TooltipContext :=
  { startContext with
    state := TooltipState.Active
    target := 7
    tooltip :=
      { sampleTooltip with dismissal := { on_distance := 5, on_click := false } } }

/-- A frame still hovering target 7, pointer at (1, 2): squared
distance from the stored activation point (0, 0) is exactly 5. -/
def edgePointerFrame7 : FrameInput :=
  { emptyFrame with
    cam_window := true
    focused := true
    cursor_position := Option.some ⟨1, 2⟩
    ui_nodes := [⟨7, Option.some (sampleTooltip, Interaction.Hovered)⟩] }

/-- C7 witness: a pointer sitting exactly on the threshold (squared
distance 5 against stored threshold 5) does not dismiss. -/
theorem C7_distance_dismissal_witness :
    ((update_tooltip_context ⟨99⟩ edgePointerFrame7 activeEdgeCtx).1.state =
        TooltipState.Dismissed ↔
      distance_squared activeEdgeCtx.cursor_pos ⟨1, 2⟩ >
        activeEdgeCtx.tooltip.dismissal.on_distance) ∧
    (¬ distance_squared activeEdgeCtx.cursor_pos ⟨1, 2⟩ >
        activeEdgeCtx.tooltip.dismissal.on_distance →
      (update_tooltip_context ⟨99⟩ edgePointerFrame7 activeEdgeCtx).1.state =
        TooltipState.Active) :=
  C7_distance_dismissal ⟨99⟩ edgePointerFrame7 activeEdgeCtx sampleTooltip ⟨1, 2⟩
    rfl rfl rfl

/-! ### C8 -/

/-- The cursor-movement block records the live pointer whenever the
state is not `Active`. -/
theorem cursor_movement_step_records (inp : FrameInput) (ctx : TooltipContext) (p : Vec2)
    (hfp : frame_pointer inp = Option.some p) (hs : ctx.state ≠ TooltipState.Active) :
    (cursor_movement_step inp ctx).cursor_pos = p := by
  unfold cursor_movement_step
  rw [hfp]
  by_cases h1 : ctx.cursor_pos ≠ p ∧ ctx.state = TooltipState.Delayed ∧
      ctx.tooltip.activation.reset_delay_on_cursor_move = true
  · simp [h1, hs]
  · simp [h1, hs]

/-- C8: the per-frame update preserves the frozen activation point:
while `Active` and not dismissed by the distance check, `cursor_pos` is
not overwritten by the live pointer; and on any frame that enters
`Active` from a non-`Active` state with a live pointer `p`,
`cursor_pos` is exactly `p` (the position captured at the moment of
activation). -/
theorem C8_cursor_frozen (s : TooltipSettings) (inp : FrameInput) (ctx : TooltipContext) :
    (ctx.state = TooltipState.Active →
      (∀ p, frame_pointer inp = Option.some p →
        ¬ distance_squared ctx.cursor_pos p > ctx.tooltip.dismissal.on_distance) →
      (update_tooltip_context s inp ctx).1.cursor_pos = ctx.cursor_pos) ∧
    (ctx.state ≠ TooltipState.Active →
      ∀ p, frame_pointer inp = Option.some p →
        (update_tooltip_context s inp ctx).1.state = TooltipState.Active →
        (update_tooltip_context s inp ctx).1.cursor_pos = p) := by
  constructor
  · intro hA hnd
    rw [update_cursor_pos]
    match hfp : frame_pointer inp with
    | Option.none => rw [cursor_movement_step_skip inp ctx hfp]
    | Option.some p =>
      rw [cursor_movement_step_active inp ctx p hfp hA, if_neg (hnd p hfp)]
  · intro hA p hfp _
    rw [update_cursor_pos]
    exact cursor_movement_step_records inp ctx p hfp hA

/-- A frame still hovering target 7 with the pointer at (1, 2), within
`activeCtx7`'s stored threshold 10 (squared distance 5). -/
def pointerFrame7 : FrameInput :=
  { emptyFrame with
    cam_window := true
    focused := true
    cursor_position := Option.some ⟨1, 2⟩
    ui_nodes := [⟨7, Option.some (transferActiveTooltip, Interaction.Hovered)⟩] }

/-- C8 witness: an `Active` frame with the pointer inside the stored
radius leaves the activation point untouched. -/
theorem C8_cursor_frozen_witness :
    (update_tooltip_context ⟨99⟩ pointerFrame7 activeCtx7).1.cursor_pos =
      activeCtx7.cursor_pos :=
  (C8_cursor_frozen ⟨99⟩ pointerFrame7 activeCtx7).1 rfl (by
    intro q hq
    injection hq with hq
    subst hq
    norm_num [activeCtx7, startContext, transferActiveTooltip, sampleTooltip,
      Vec2.zero, distance_squared])

/-! ### C3 -/

/-- A sprite whose projected screen bounds (800×600 window, camera at
the origin with scale 1) are centred on screen position (0, 0). -/
def spriteEntry20 : SpriteEntry :=
  { entity := 20, tooltip := sampleTooltip, custom_size := Option.none,
    world_pos := ⟨-400, 300⟩ }

/-- A frame whose focused window reports no pointer position, with no
UI targets and one sprite. -/
def spriteFrameNoPtr : FrameInput :=
  { emptyFrame with
    cam_window := true
    focused := true
    cursor_position := Option.none
    sprites := [spriteEntry20] }

set_option maxHeartbeats 1600000 in
/-- C3 counterexample: with no pointer position reported, world-space
hit-testing is not skipped — it runs against the defaulted position
(0, 0) and targets the sprite whose bounds contain it, moving the
state machine out of `Inactive`. -/
theorem C3_counterexample :
    spriteFrameNoPtr.cursor_position = Option.none ∧
    (update_tooltip_context ⟨99⟩ spriteFrameNoPtr startContext).1.target = 20 ∧
    (update_tooltip_context ⟨99⟩ spriteFrameNoPtr startContext).1.state =
      TooltipState.Delayed := by
  refine ⟨rfl, ?_⟩
  norm_num +decide [update_tooltip_context, cursor_movement_step, frame_pointer, tick_timer_step,
    resolve_ui, resolve_sprites, resolve_sprites_list, get_current_cursor_pos,
    sprite_contains_point, hover_resolve, should_activate_immediately,
    apply_tooltip_transition, square_on_distance, no_target_step, emit_effects,
    group_matches, distance_squared, startContext, spriteFrameNoPtr, emptyFrame,
    spriteEntry20, sampleTooltip, Vec2.zero, PLACEHOLDER]

/-- C3 amended: when the owning window is unfocused or reports no
pointer position, the cursor-movement block (delay-reset,
distance-dismissal, cursor-position recording) is skipped entirely and
timers still tick; but the sprite hit-test position is merely defaulted
to (0, 0) when no position is reported, not skipped. -/
theorem C3_pointer_skip (s : TooltipSettings) (inp : FrameInput) (ctx : TooltipContext)
    (h : inp.focused = false ∨ inp.cursor_position = Option.none) :
    cursor_movement_step inp ctx = ctx ∧
    (inp.cursor_position = Option.none → get_current_cursor_pos inp = Vec2.zero) ∧
    (ctx.state = TooltipState.Inactive → inp.ui_nodes = [] → inp.cam_window = false →
      (update_tooltip_context s inp ctx).1.timer = ctx.timer - inp.delta_ms % 65536) := by
  have hskip : cursor_movement_step inp ctx = ctx := by
    rcases h with h | h
    · exact cursor_movement_step_skip inp ctx (frame_pointer_none_of_unfocused inp h)
    · exact cursor_movement_step_skip inp ctx (frame_pointer_none_of_no_pos inp h)
  refine ⟨hskip, fun hn => ?_, fun hs hui hcam => ?_⟩
  · unfold get_current_cursor_pos
    rw [hn]
    split <;> rfl
  · have htick := tick_timer_step_inactive inp.delta_ms ctx hs
    have hres : resolve_ui inp.ui_nodes
        (tick_timer_step inp.delta_ms (cursor_movement_step inp ctx)) =
        ({ ctx with timer := ctx.timer - inp.delta_ms % 65536 }, false) := by
      rw [hskip, htick, hui]
      rfl
    rw [update_no_target s inp ctx _ hcam hres,
      no_target_step_inactive false _ (by exact hs)]

/-- C3 amended witness: an unfocused frame leaves the cursor block
inert, the defaulted hit-test position is (0, 0), and the `Inactive`
timer still ticks down by the frame delta. -/
theorem C3_pointer_skip_witness :
    cursor_movement_step emptyFrame inactiveTransferCtx = inactiveTransferCtx ∧
    (emptyFrame.cursor_position = Option.none →
      get_current_cursor_pos emptyFrame = Vec2.zero) ∧
    (inactiveTransferCtx.state = TooltipState.Inactive → emptyFrame.ui_nodes = [] →
      emptyFrame.cam_window = false →
      (update_tooltip_context ⟨99⟩ emptyFrame inactiveTransferCtx).1.timer =
        inactiveTransferCtx.timer - emptyFrame.delta_ms % 65536) :=
  C3_pointer_skip ⟨99⟩ emptyFrame inactiveTransferCtx (Or.inl rfl)

/-! ### C5 -/

/-- A frame still hovering target 7 with a focused pointer resting at
the stored position (0, 0). -/
def stillFrame7 : FrameInput :=
  { emptyFrame with
    cam_window := true
    focused := true
    cursor_position := Option.some Vec2.zero
    ui_nodes := [⟨7, Option.some (sampleTooltip, Interaction.Hovered)⟩] }

set_option maxHeartbeats 3200000 in
/-- C5 counterexample: hovering target 7 (activation delay 2 ms > 0)
continuously for four 1 ms frames with a still pointer emits **two**
show events, not exactly one — the frame after activation re-emits
hide+show for the still-hovered `Active` target. -/
theorem C5_counterexample :
    sampleTooltip.activation.delay = 2 ∧
    (run_frames ⟨99⟩ [stillFrame7, stillFrame7, stillFrame7, stillFrame7]
      startContext).2.2 = 2 := by
  refine ⟨rfl, ?_⟩
  norm_num +decide [run_frames, update_tooltip_context, cursor_movement_step, frame_pointer,
    tick_timer_step, resolve_ui, resolve_sprites, resolve_sprites_list,
    get_current_cursor_pos, sprite_contains_point, hover_resolve,
    should_activate_immediately, apply_tooltip_transition, square_on_distance,
    no_target_step, emit_effects, old_content_entity, group_matches, distance_squared,
    startContext, stillFrame7, emptyFrame, sampleTooltip, Vec2.zero, PLACEHOLDER]

/-- C5 amended: a `Delayed` frame over the same still-hovered target
stays `Delayed` with the timer decremented while the delta is below the
remaining delay and emits nothing; the frame on which the accumulated
time reaches the delay transitions to `Active` and emits exactly one
show event and no hide event.  (Each *further* hovered `Active` frame
re-emits hide+show, so the run as a whole emits more than one show.) -/
theorem C5_delayed_progress (s : TooltipSettings) (inp : FrameInput)
    (ctx : TooltipContext) (T : Tooltip) (p : Vec2)
    (hn : inp.ui_nodes = [⟨ctx.target, Option.some (T, Interaction.Hovered)⟩])
    (hfp : frame_pointer inp = Option.some p)
    (hp : ctx.cursor_pos = p)
    (hs : ctx.state = TooltipState.Delayed) :
    (inp.delta_ms % 65536 < ctx.timer →
      (update_tooltip_context s inp ctx).1.state = TooltipState.Delayed ∧
      (update_tooltip_context s inp ctx).1.timer = ctx.timer - inp.delta_ms % 65536 ∧
      (update_tooltip_context s inp ctx).2.hide_event = Option.none ∧
      (update_tooltip_context s inp ctx).2.show_event = false) ∧
    (ctx.timer ≤ inp.delta_ms % 65536 →
      (update_tooltip_context s inp ctx).1.state = TooltipState.Active ∧
      (update_tooltip_context s inp ctx).2.hide_event = Option.none ∧
      (update_tooltip_context s inp ctx).2.show_event = true) := by
  have hcur := cursor_movement_step_still inp ctx p hfp hp (by simp [hs])
  constructor
  · intro hlt
    have hui : resolve_ui inp.ui_nodes
        (tick_timer_step inp.delta_ms (cursor_movement_step inp ctx)) =
        ({ ctx with
            timer := ctx.timer - inp.delta_ms % 65536,
            tooltip := square_on_distance T }, true) := by
      rw [hcur, tick_timer_step_delayed_lt _ _ hs hlt, hn]
      exact resolve_ui_refresh _ _ _ _ rfl (by simp [hs])
    rw [update_found_ui s inp ctx _ hui, emit_effects_found]
    exact ⟨hs, rfl, by simp [hs], by simp [hs]⟩
  · intro hle
    have hui : resolve_ui inp.ui_nodes
        (tick_timer_step inp.delta_ms (cursor_movement_step inp ctx)) =
        ({ ctx with
            timer := 0,
            state := TooltipState.Active,
            tooltip := square_on_distance T }, true) := by
      rw [hcur, tick_timer_step_delayed_le _ _ hs hle, hn]
      exact resolve_ui_refresh _ _ _ _ rfl (by simp)
    rw [update_found_ui s inp ctx _ hui, emit_effects_found]
    exact ⟨rfl, by simp [hs], by simp⟩

/-- C5 amended witness: a 1 ms `Delayed` frame with 5 ms remaining
stays `Delayed` at 4 ms and emits nothing. -/
theorem C5_delayed_progress_witness :
    (stillFrame7.delta_ms % 65536 < delayedCtx7.timer →
      (update_tooltip_context ⟨99⟩ stillFrame7 delayedCtx7).1.state =
        TooltipState.Delayed ∧
      (update_tooltip_context ⟨99⟩ stillFrame7 delayedCtx7).1.timer =
        delayedCtx7.timer - stillFrame7.delta_ms % 65536 ∧
      (update_tooltip_context ⟨99⟩ stillFrame7 delayedCtx7).2.hide_event =
        Option.none ∧
      (update_tooltip_context ⟨99⟩ stillFrame7 delayedCtx7).2.show_event = false) ∧
    (delayedCtx7.timer ≤ stillFrame7.delta_ms % 65536 →
      (update_tooltip_context ⟨99⟩ stillFrame7 delayedCtx7).1.state =
        TooltipState.Active ∧
      (update_tooltip_context ⟨99⟩ stillFrame7 delayedCtx7).2.hide_event =
        Option.none ∧
      (update_tooltip_context ⟨99⟩ stillFrame7 delayedCtx7).2.show_event = true) :=
  C5_delayed_progress ⟨99⟩ stillFrame7 delayedCtx7 sampleTooltip Vec2.zero
    rfl rfl rfl rfl

end PyriTooltip
